import Mathlib

/-!
# ShazamIO pipeline — verification development

Shallow embedding of the chunked song-recognition pipeline
(`src/testyboy.py`, `src/test_ui.py`, `src/clean.py`).

Python dicts are modelled as structures whose fields are `Option`-valued:
`none` means the key is absent, `some v` means it is present with a
well-typed value.  `dict.get(k, d)` becomes `Option.getD`; direct indexing
`dict[k]` on a possibly-absent key becomes an `Except`-valued computation
(a `KeyError`).  Python truthiness of one of these modelled dicts is
"at least one modelled key is present" (the empty dict `\x7b\x7d` is falsy).
Side effects (`print`, file export) are not modelled.
-/

/-- One `{title, text}` metadata entry inside a section of the raw
Shazam payload. -/
structure MetaEntry where
  title : Option String
  text : Option String
deriving DecidableEq, Repr

/-- One element of the payload's `"sections"` list; only its
`"metadata"` key is ever read. -/
structure SectionRec where
  metadata : Option (List MetaEntry)
deriving DecidableEq, Repr

/-- The nested `"genres"` object; only `"primary"` is read. -/
structure Genres where
  primary : Option String
deriving DecidableEq, Repr

/-- The `"track"` object of a raw recognition payload: the keys the
source code reads (`key`, `title`, `subtitle`, `genres`, `sections`). -/
structure Track where
  key : Option String
  title : Option String
  subtitle : Option String
  genres : Option Genres
  sections : Option (List SectionRec)
deriving DecidableEq, Repr

/-- A raw recognition payload (the dict returned by `shazam.recognize`):
the keys the source code reads are `"track"` and the top-level
`"timestamp"` (the latter is read by `testyboy.main` as
`chunk["timestamp"]`). -/
structure Payload where
  track : Option Track
  timestamp : Option String
deriving DecidableEq, Repr

/-- Python truthiness of a `Track` dict over the modelled keys:
falsy iff every key is absent (the empty dict). -/
def Track.truthy (t : Track) : Bool :=
  t.key.isSome || t.title.isSome || t.subtitle.isSome || t.genres.isSome || t.sections.isSome

/-- Python truthiness of a `Payload` dict over the modelled keys. -/
def Payload.truthy (p : Payload) : Bool :=
  p.track.isSome || p.timestamp.isSome

/-- The empty dict `\x7b\x7d` as a `Track`. -/
def emptyTrack : Track := ⟨none, none, none, none, none⟩

/-- The empty dict `\x7b\x7d` as a `Payload`. -/
def emptyPayload : Payload := ⟨none, none⟩

/-- `section.get("metadata", [])`. -/
def sectionMetas (s : SectionRec) : List MetaEntry := s.metadata.getD []

/-! ## `testyboy.extract_track_info`

```python
def extract_track_info(entry, timestamp):
    track_info = entry.get("track", \x7b\x7d)
    title = track_info.get("title", "Unknown Track Name")
    artist = track_info.get("subtitle", "Unknown Artist")
    genre = track_info.get("genres", \x7b\x7d).get("primary", "Unknown Genre")
    sections = track_info.get("sections", [])
    album = "Unknown Album"
    year_released = "Unknown Year"
    for section in sections:
        metadata = section.get("metadata", [])
        for meta in metadata:
            if meta.get("title") == "Album":
                album = meta.get("text", "Unknown Album")
            if meta.get("title") == "Released":
                year_released = meta.get("text", "Unknown Year")
    return { ...six keys... }
```
The returned dict is modelled as an association list in the source's
key order. -/

/-- The body of the inner `for meta in metadata` loop: the running
`(album, year_released)` pair updated by one metadata entry.  The two
`if` statements update the two variables independently. -/
def scanMeta (st : String × String) (m : MetaEntry) : String × String :=
  (if m.title = some "Album" then m.text.getD "Unknown Album" else st.1,
   if m.title = some "Released" then m.text.getD "Unknown Year" else st.2)

/-- `testyboy.extract_track_info`, as an association list of the six
returned keys in source order. -/
def extract_track_info (entry : Payload) (timestamp : String) : List (String × String) :=
  let track_info := entry.track.getD emptyTrack
  let title := track_info.title.getD "Unknown Track Name"
  let artist := track_info.subtitle.getD "Unknown Artist"
  let genre := (track_info.genres.getD ⟨none⟩).primary.getD "Unknown Genre"
  let sections := track_info.sections.getD []
  let st := sections.foldl (fun st s => (sectionMetas s).foldl scanMeta st)
    ("Unknown Album", "Unknown Year")
  [("Track Name", title), ("Artist", artist), ("Album", st.1), ("Genre", genre),
   ("Year Released", st.2), ("Timestamp", timestamp)]

/-! ## `test_ui.App.extract_track_info`

```python
def extract_track_info(entry, chunk_timestamp):
    track_info = entry.get("track", \x7b\x7d)
    return {"Track Name": track_info.get("title", "Unknown"),
            "Artist": track_info.get("subtitle", "Unknown"),
            "Timestamp": chunk_timestamp}
``` -/

namespace App

/-- `test_ui.App.extract_track_info`, as an association list in source
order: it returns only three keys. -/
def extract_track_info (entry : Payload) (chunk_timestamp : String) : List (String × String) :=
  let track_info := entry.track.getD emptyTrack
  [("Track Name", track_info.title.getD "Unknown"),
   ("Artist", track_info.subtitle.getD "Unknown"),
   ("Timestamp", chunk_timestamp)]

end App

/-! ## `clean.extract_track_info`'s album/year lookup

```python
album = next((meta.get("text")
              for meta in track.get("sections", [\x7b\x7d])[0].get("metadata", [])
              if meta.get("title") == "Album"),
             "Unknown Album")
```
Only the FIRST section is scanned (`[0]`); `sections == []` raises
`IndexError`; the found entry's `text` may itself be `None` (Python
`None` is modelled as `none`, a found string `s` as `some s`). -/

namespace Clean

/-- The album lookup of `clean.extract_track_info`. -/
def album_lookup (t : Track) : Except String (Option String) :=
  match t.sections with
  | none => .ok (some "Unknown Album")
  | some [] => .error "IndexError"
  | some (s :: _) =>
    match (sectionMetas s).find? (fun m => m.title == some "Album") with
    | some m => .ok m.text
    | none => .ok (some "Unknown Album")

end Clean

/-! ## `testyboy.deduplicate_results`

```python
def deduplicate_results(results):
    seen = set()
    deduplicated = []
    for result in results:
        if result and result.get('track') and result['track']['key'] not in seen:
            seen.add(result['track']['key'])
            print('FOUND DUPLICATE')
            deduplicated.append(result)
    return deduplicated
```
Python evaluates the condition left to right: a falsy `result` or a
falsy `result.get('track')` short-circuits to skip; otherwise
`result['track']['key']` is evaluated, which raises `KeyError` when the
(non-empty) track dict has no `'key'` entry. -/

/-- How `deduplicate_results` treats one element: skipped without
looking at keys, a `KeyError`, or carrying identity key `k`. -/
inductive DedupStep where
  | skip
  | keyErr
  | key (k : String)
deriving DecidableEq, Repr

/-- Classify one element of the input list by the loop's condition. -/
def dedupClass (r : Payload) : DedupStep :=
  if ¬ r.truthy then .skip
  else match r.track with
    | none => .skip
    | some t =>
      if ¬ t.truthy then .skip
      else match t.key with
        | none => .keyErr
        | some k => .key k

/-- The loop of `deduplicate_results`, with the `seen` set threaded
through; output order is append order. -/
def dedupGo (seen : List String) : List Payload → Except String (List Payload)
  | [] => .ok []
  | r :: rest =>
    match dedupClass r with
    | .skip => dedupGo seen rest
    | .keyErr => .error "KeyError"
    | .key k =>
      if k ∈ seen then dedupGo seen rest
      else (dedupGo (k :: seen) rest).map (r :: ·)

/-- `testyboy.deduplicate_results`. -/
def deduplicate_results (results : List Payload) : Except String (List Payload) :=
  dedupGo [] results

/-! ## Recognition client and result collection -/

/-- Outcome of the one external `shazam.recognize` call for a window:
either a payload or a raised exception. -/
inductive ServiceResult where
  | ok (p : Payload)
  | exn (msg : String)
deriving DecidableEq, Repr

/-- `testyboy.analyze_chunk_with_shazam` / `test_ui.App.analyze_chunk_with_shazam`:
returns the payload on success; `except Exception` turns any raised
exception into `None`. -/
def analyze_chunk_with_shazam (r : ServiceResult) : Option Payload :=
  match r with
  | .ok p => some p
  | .exn _ => none

/-- The collection loop of `testyboy.main` (lines 161–167): per-window
recognition results are appended in window order when truthy
(`if result:` drops both `None` and the empty dict). -/
def collect_results (perWindow : List (Option Payload)) : List Payload :=
  perWindow.filterMap fun r =>
    match r with
    | some p => if p.truthy then some p else none
    | none => none

/-- The collection loop of `test_ui.App.process_pipeline` (lines 75–80):
each window is a (recognition result, chunk timestamp) pair, and a
truthy result is kept together with its own chunk's timestamp. -/
def ui_collect (windows : List (Option Payload × String)) : List (Payload × String) :=
  windows.filterMap fun w =>
    match w.1 with
    | some p => if p.truthy then some (p, w.2) else none
    | none => none

/-- The rest of `test_ui.App.process_pipeline` (lines 81–84): extract
every collected result with its own chunk timestamp — no deduplication
step exists in this pipeline. -/
def ui_pipeline (windows : List (Option Payload × String)) : List (List (String × String)) :=
  (ui_collect windows).map fun rc => App.extract_track_info rc.1 rc.2

/-! ## `testyboy.main`'s extraction stage (lines 169–176)

```python
deduplicated_results = deduplicate_results(results)
extracted_info = [
    extract_track_info(result, chunk["timestamp"])
    for result, chunk in zip(deduplicated_results, results)
]
```
Note the `zip` pairs the deduplicated list positionally with the
PRE-deduplication `results` list, and reads `chunk["timestamp"]`
(direct indexing: `KeyError` when absent) from the raw payload. -/

/-- The list comprehension over `zip(deduplicated_results, results)`. -/
def main_extract_pairs : List (Payload × Payload) → Except String (List (List (String × String)))
  | [] => .ok []
  | (r, c) :: rest =>
    match c.timestamp with
    | none => .error "KeyError"
    | some ts => (main_extract_pairs rest).map (extract_track_info r ts :: ·)

/-- `testyboy.main` from the per-window recognition results to the final
`extracted_info` list. -/
def main_extracted (perWindow : List (Option Payload)) : Except String (List (List (String × String))) :=
  let results := collect_results perWindow
  deduplicate_results results >>= fun ded =>
    main_extract_pairs (ded.zip results)

/-! ## Segmentation

`testyboy.split_audio_into_chunks` (and the `test_ui` variant) call
pydub's `make_chunks`:

```python
def make_chunks(audio_segment, chunk_length):
    number_of_chunks = ceil(len(audio_segment) / float(chunk_length))
    return [audio_segment[i * chunk_length:(i + 1) * chunk_length]
            for i in range(int(number_of_chunks))]
```

The audio is modelled by its length in milliseconds; each produced chunk
by its raw slice bounds `(i*chunk_length, (i+1)*chunk_length)`.  The
`float` division followed by `ceil` is modelled as exact rational
division (they agree at these magnitudes); `chunk_length == 0` raises
`ZeroDivisionError`.  Exporting each chunk to an mp3 file and the
filename formatting are I/O and are not modelled. -/

/-- pydub's `make_chunks` on an audio segment of `audioLen`
milliseconds. -/
def make_chunks (audioLen : Nat) (chunk_length : Int) : Except String (List (Int × Int)) :=
  if chunk_length = 0 then .error "ZeroDivisionError"
  else .ok ((List.range (⌈(audioLen : ℚ) / (chunk_length : ℚ)⌉).toNat).map fun (i : Nat) =>
    ((i : Int) * chunk_length, ((i : Int) + 1) * chunk_length))

/-- `split_audio_into_chunks`: the chunk duration is given in seconds
and converted to milliseconds.  There is no input validation in the
source. -/
def split_audio_into_chunks (audioLen : Nat) (chunk_duration : Int) : Except String (List (Int × Int)) :=
  make_chunks audioLen (chunk_duration * 1000)

/-! ## `download_youtube_audio`

```python
try:
    subprocess.run([...], check=True, ...)
    for file in os.listdir(temp_dir):
        if file.startswith("audio_file") and file.endswith(".mp3"):
            return os.path.join(temp_dir, file)
except subprocess.CalledProcessError as e:
    raise Exception(f"Error downloading audio: {e.stderr.decode()}")
```
The subprocess is external: it is modelled by its outcome (success, or a
`CalledProcessError` carrying stderr); `os.listdir` by the directory's
file list.  When the loop finds no match the function falls off the end
and returns `None`. -/

/-- Python `str.startswith`, on the string's character sequence. -/
def pyStartsWith (s pre : String) : Bool := pre.data.isPrefixOf s.data

/-- Python `str.endswith`, on the string's character sequence. -/
def pyEndsWith (s suf : String) : Bool := suf.data.isSuffixOf s.data

/-- The filename test of the loop:
`file.startswith("audio_file") and file.endswith(".mp3")`. -/
def audioFileMatch (f : String) : Bool :=
  pyStartsWith f "audio_file" && pyEndsWith f ".mp3"

/-- `testyboy.download_youtube_audio` / `test_ui.App.download_youtube_audio`,
parametrised by the subprocess outcome and the temp directory listing. -/
def download_youtube_audio (subprocessOutcome : Except String Unit)
    (temp_dir : String) (listing : List String) : Except String (Option String) :=
  match subprocessOutcome with
  | .error stderr => .error ("Error downloading audio: " ++ stderr)
  | .ok _ =>
    match listing.find? audioFileMatch with
    | some f => .ok (some (temp_dir ++ "/" ++ f))
    | none => .ok none

/-! ## `test_ui.App.slskd_search`

```python
try:
    response = requests.post(SLSKD_URL, json=payload)
    response.raise_for_status()
    return response.json().get("result", [])
except requests.RequestException as e:
    return [{"username": "Error", "path": str(e), "filesize": "N/A"}]
``` -/

/-- One search result entry as the adapter returns it. -/
structure MatchCandidate where
  username : String
  path : String
  filesize : String
deriving DecidableEq, Repr

/-- The transport's behaviour for one `requests.post`: either a parsed
JSON body (whose `"result"` key may be absent) after a passing
`raise_for_status`, or a raised `requests.RequestException` (connection
error, timeout, or an HTTP error status) with its message. -/
inductive TransportResult where
  | response (result : Option (List MatchCandidate))
  | exn (msg : String)
deriving DecidableEq, Repr

/-- `test_ui.App.slskd_search`, parametrised by the transport outcome. -/
def slskd_search (tr : TransportResult) : List MatchCandidate :=
  match tr with
  | .response r => r.getD []
  | .exn e => [⟨"Error", e, "N/A"⟩]

/-! ## Concrete payloads used in the scenario theorems -/

/-- A track with identity key "ABC". -/
def trackABC : Track := ⟨some "ABC", some "Song A", some "Artist A", none, none⟩

/-- A track with identity key "XYZ". -/
def trackXYZ : Track := ⟨some "XYZ", some "Song X", some "Artist X", none, none⟩

/-- Window 0's payload: identity "ABC", payload timestamp "t0". -/
def pABC0 : Payload := ⟨some trackABC, some "t0"⟩

/-- Window 1's payload: identity "ABC" again, payload timestamp "t1". -/
def pABC1 : Payload := ⟨some trackABC, some "t1"⟩

/-- Window 2's payload: identity "XYZ", payload timestamp "t2". -/
def pXYZ2 : Payload := ⟨some trackXYZ, some "t2"⟩

/-- A track whose sections list has "Album" entries in both sections:
the first titled entry carries "First Album", the last "Second Album". -/
def trackTwoAlbums : Track :=
  ⟨some "k", none, none, none,
   some [⟨some [⟨some "Album", some "First Album"⟩]⟩,
         ⟨some [⟨some "Album", some "Second Album"⟩]⟩]⟩

/-- A track whose "Album" metadata entry appears only in the second of
two sections (the first section has an empty metadata list). -/
def trackLateAlbum : Track :=
  ⟨some "k", none, none, none,
   some [⟨some []⟩, ⟨some [⟨some "Album", some "Late Album"⟩]⟩]⟩

/-- A payload that is truthy, whose track dict is non-empty (it has a
title) but has no `'key'` entry. -/
def pNoKey : Payload := ⟨some ⟨none, some "T", none, none, none⟩, none⟩

/-! ## Theorems -/

/-- **C7.** `analyze_chunk_with_shazam` always returns a value: any
exception raised by the service call is caught and turned into `None`,
and on success the raw recognition payload is returned unchanged. -/
theorem C7_analyze_never_propagates :
    (∀ msg, analyze_chunk_with_shazam (.exn msg) = none) ∧
    (∀ p, analyze_chunk_with_shazam (.ok p) = some p) :=
  ⟨fun _ => rfl, fun _ => rfl⟩

/-- **C8.** When the search transport raises, `slskd_search` returns
exactly one synthetic candidate with owner `"Error"` and the error
message in the file-path field, and (being a total function of the
transport outcome) never propagates the exception. -/
theorem C8_search_error_as_data :
    ∀ msg, slskd_search (.exn msg) = [⟨"Error", msg, "N/A"⟩] ∧
      (slskd_search (.exn msg)).length = 1 :=
  fun _ => ⟨rfl, rfl⟩

/-- **C10.** If the download subprocess succeeds but no file in the
temporary directory matches `audio_file*.mp3`, `download_youtube_audio`
returns `None` (neither a path nor an error); an exception carrying the
subprocess stderr is raised exactly when the subprocess itself fails. -/
theorem C10_download_none_on_missing_file :
    ∀ (temp_dir : String) (listing : List String),
      ((∀ f ∈ listing, audioFileMatch f = false) →
        download_youtube_audio (.ok ()) temp_dir listing = .ok none) ∧
      (∀ stderr, download_youtube_audio (.error stderr) temp_dir listing =
        .error ("Error downloading audio: " ++ stderr)) := by
  intro temp_dir listing
  refine ⟨fun h => ?_, fun _ => rfl⟩
  have hfind : listing.find? audioFileMatch = none := by
    rw [List.find?_eq_none]
    intro f hf
    simp [h f hf]
  simp [download_youtube_audio, hfind]

/-- Witness for C10 at a concrete directory listing with no matching
file. -/
theorem C10_witness :
    (∀ f ∈ (["audio_file.webm", "other.mp3"] : List String), audioFileMatch f = false) ∧
    download_youtube_audio (.ok ()) "/tmp/d" ["audio_file.webm", "other.mp3"] = .ok none :=
  ⟨by decide, (C10_download_none_on_missing_file "/tmp/d" ["audio_file.webm", "other.mp3"]).1
    (by decide)⟩

/-- **C1 (code bug).** End-to-end evaluation of `testyboy.main`'s
extraction with windows 0 → "ABC", 1 → "ABC", 2 → "XYZ": the duplicate
is dropped, but because the code zips the deduplicated list positionally
against the PRE-deduplication `results` list, the surviving "XYZ" entry
(first seen at window 2) is extracted with `results[1]`'s timestamp
"t1" instead of its own window's "t2".  The `test_ui` pipeline, run on
the claim's own scenario ("ABC", "XYZ", "ABC"), keeps all three entries:
it has no deduplication step at all. -/
theorem C1_pipeline_timestamp_misalignment :
    main_extracted [some pABC0, some pABC1, some pXYZ2] =
      .ok [extract_track_info pABC0 "t0", extract_track_info pXYZ2 "t1"] ∧
    (extract_track_info pXYZ2 "t1").lookup "Timestamp" = some "t1" ∧
    ("t1" : String) ≠ "t2" ∧
    (ui_pipeline [(some pABC0, "0:00"), (some pXYZ2, "0:40"), (some pABC1, "1:20")]).length
      = 3 := by
  refine ⟨rfl, rfl, by decide, rfl⟩

/-- **C5 counterexample.** `test_ui.App.extract_track_info` (cited by the
claim) does not return a record with all six `ExtractedTrack` fields: on
the empty payload it returns a three-field record with no "Album" key
(and no "Genre" or "Year Released" key either). -/
theorem C5_counterexample :
    "Album" ∉ (App.extract_track_info emptyPayload "0:00").map Prod.fst ∧
    (App.extract_track_info emptyPayload "0:00").length = 3 := by
  constructor
  · decide
  · rfl

/-- **C5 (amended).** `testyboy.extract_track_info` is a total function
(extraction never raises) that always returns all six fields in order;
on the empty payload every field is its documented default and the
timestamp is passed through; each field absent from the payload yields
its default regardless of the other fields.  `test_ui.App.extract_track_info`
is likewise total and defaulting but returns only the three fields
"Track Name", "Artist", "Timestamp", with placeholder "Unknown". -/
theorem C5_amended_extraction_total_defaults :
    (∀ (p : Payload) (ts : String), (extract_track_info p ts).map Prod.fst =
      ["Track Name", "Artist", "Album", "Genre", "Year Released", "Timestamp"]) ∧
    (∀ ts, extract_track_info emptyPayload ts =
      [("Track Name", "Unknown Track Name"), ("Artist", "Unknown Artist"),
       ("Album", "Unknown Album"), ("Genre", "Unknown Genre"),
       ("Year Released", "Unknown Year"), ("Timestamp", ts)]) ∧
    (∀ (k sub g sec tso ts), (extract_track_info ⟨some ⟨k, none, sub, g, sec⟩, tso⟩ ts).lookup
      "Track Name" = some "Unknown Track Name") ∧
    (∀ (k t g sec tso ts), (extract_track_info ⟨some ⟨k, t, none, g, sec⟩, tso⟩ ts).lookup
      "Artist" = some "Unknown Artist") ∧
    (∀ (k t sub sec tso ts), (extract_track_info ⟨some ⟨k, t, sub, none, sec⟩, tso⟩ ts).lookup
      "Genre" = some "Unknown Genre") ∧
    (∀ (k t sub g tso ts), (extract_track_info ⟨some ⟨k, t, sub, g, none⟩, tso⟩ ts).lookup
      "Album" = some "Unknown Album" ∧
      (extract_track_info ⟨some ⟨k, t, sub, g, none⟩, tso⟩ ts).lookup
      "Year Released" = some "Unknown Year") ∧
    (∀ (p : Payload) (ts : String), (App.extract_track_info p ts).map Prod.fst =
      ["Track Name", "Artist", "Timestamp"]) ∧
    (∀ ts, App.extract_track_info emptyPayload ts =
      [("Track Name", "Unknown"), ("Artist", "Unknown"), ("Timestamp", ts)]) := by
  refine ⟨fun p ts => rfl, fun ts => rfl, fun k sub g sec tso ts => rfl,
    fun k t g sec tso ts => rfl, fun k t sub sec tso ts => rfl,
    fun k t sub g tso ts => ⟨rfl, rfl⟩, fun p ts => rfl, fun ts => rfl⟩

/-- **C6 counterexample.** An outcome that is truthy and has a non-empty
track dict but no `'key'` entry is not dropped: `deduplicate_results`
raises `KeyError` on it. -/
theorem C6_counterexample :
    deduplicate_results [pNoKey] = .error "KeyError" := by
  rfl

/-- **C2 counterexample.** With "Album" entries in both of two sections
("First Album" then "Second Album"), `testyboy.extract_track_info`
returns the LAST one, not the first as the claim states; and
`clean.extract_track_info` (also cited), given "Album" only in the
second of two sections, returns the default instead of that value. -/
theorem C2_counterexample :
    (extract_track_info ⟨some trackTwoAlbums, none⟩ "ts").lookup "Album" =
      some "Second Album" ∧
    ("Second Album" : String) ≠ "First Album" ∧
    Clean.album_lookup trackLateAlbum = .ok (some "Unknown Album") := by
  refine ⟨rfl, by decide, rfl⟩

/-- Replacing one per-window result with a failure (`none`) yields
exactly the collection obtained by deleting that window: every other
window's outcome is unchanged and keeps its relative order. -/
theorem collect_results_set_none (perWindow : List (Option Payload)) :
    ∀ i, collect_results (perWindow.set i none) = collect_results (perWindow.eraseIdx i) := by
  induction perWindow with
  | nil => intro i; rfl
  | cons r rest ih =>
    intro i
    cases i with
    | zero =>
      simp only [List.set, List.eraseIdx]
      simp [collect_results, List.filterMap_cons]
    | succ n =>
      have ihn := ih n
      simp only [List.set, List.eraseIdx]
      simp only [collect_results, List.filterMap_cons] at ihn ⊢
      cases r with
      | none => exact ihn
      | some p =>
        by_cases hp : p.truthy <;> simp only [hp, if_true, if_false] <;>
          simp [ihn]

/-- The `test_ui` analogue: replacing one window's recognition result
with a failure (keeping any chunk timestamp in its slot) collects the
same (payload, timestamp) pairs as deleting the window. -/
theorem ui_collect_set_none (windows : List (Option Payload × String)) :
    ∀ (i : Nat) (ts : String),
      ui_collect (windows.set i (none, ts)) = ui_collect (windows.eraseIdx i) := by
  induction windows with
  | nil => intro i ts; rfl
  | cons w rest ih =>
    intro i ts
    cases i with
    | zero =>
      simp only [List.set, List.eraseIdx]
      simp [ui_collect, List.filterMap_cons]
    | succ n =>
      have ihn := ih n ts
      simp only [List.set, List.eraseIdx]
      simp only [ui_collect, List.filterMap_cons] at ihn ⊢
      obtain ⟨r, wts⟩ := w
      cases r with
      | none => exact ihn
      | some p =>
        by_cases hp : p.truthy <;> simp only [hp, if_true, if_false] <;>
          simp [ihn]

/-- **C3.** Partial failure isolation, two-run statement, for both
pipelines: replacing window `i`'s recognition result with a failure
(`None`) leaves every other window's outcome unchanged and in the same
relative order — the collected results (and, for `test_ui`, the full
list of extracted tracks) equal those of the run with window `i` deleted
outright. -/
theorem C3_partial_failure_isolation :
    (∀ (perWindow : List (Option Payload)) (i : Nat),
      collect_results (perWindow.set i none) = collect_results (perWindow.eraseIdx i)) ∧
    (∀ (windows : List (Option Payload × String)) (i : Nat) (ts : String),
      ui_pipeline (windows.set i (none, ts)) = ui_pipeline (windows.eraseIdx i)) := by
  refine ⟨fun pw i => collect_results_set_none pw i, fun ws i ts => ?_⟩
  unfold ui_pipeline
  rw [ui_collect_set_none ws i ts]

/-- The identity key the dedup loop would use for an element, `none`
when the element is skipped or has no usable key. -/
def keysOf (r : Payload) : Option String :=
  match dedupClass r with
  | .key k => some k
  | _ => none

/-- Reference first-occurrence filter on key lists, relative to an
already-seen set. -/
def firstOccur (seen : List String) : List String → List String
  | [] => []
  | k :: ks => if k ∈ seen then firstOccur seen ks else k :: firstOccur (k :: seen) ks

/-- Everything `dedupGo` keeps is an order-preserving selection of its
input. -/
theorem dedupGo_sublist :
    ∀ (xs : List Payload) (seen : List String) (ys : List Payload),
      dedupGo seen xs = .ok ys → ys.Sublist xs := by
  intro xs
  induction xs with
  | nil =>
    intro seen ys h
    simp only [dedupGo] at h
    cases h
    exact List.Sublist.refl []
  | cons r rest ih =>
    intro seen ys h
    rcases hc : dedupClass r with _ | _ | k <;> simp only [dedupGo, hc] at h
    · exact (ih seen ys h).cons r
    · cases h
    · by_cases hk : k ∈ seen
      · rw [if_pos hk] at h
        exact (ih seen ys h).cons r
      · rw [if_neg hk] at h
        cases hrec : dedupGo (k :: seen) rest with
        | error e => rw [hrec] at h; cases h
        | ok ys' =>
          rw [hrec] at h
          cases h
          exact (ih (k :: seen) ys' hrec).cons₂ r

/-- Running the loop again on its own successful output (with the same
starting seen set) returns that output unchanged. -/
theorem dedupGo_idem :
    ∀ (xs : List Payload) (seen : List String) (ys : List Payload),
      dedupGo seen xs = .ok ys → dedupGo seen ys = .ok ys := by
  intro xs
  induction xs with
  | nil =>
    intro seen ys h
    simp only [dedupGo] at h
    cases h
    rfl
  | cons r rest ih =>
    intro seen ys h
    rcases hc : dedupClass r with _ | _ | k <;> simp only [dedupGo, hc] at h
    · exact ih seen ys h
    · cases h
    · by_cases hk : k ∈ seen
      · rw [if_pos hk] at h
        exact ih seen ys h
      · rw [if_neg hk] at h
        cases hrec : dedupGo (k :: seen) rest with
        | error e => rw [hrec] at h; cases h
        | ok ys' =>
          rw [hrec] at h
          cases h
          have hy := ih (k :: seen) ys' hrec
          simp only [dedupGo, hc, if_neg hk, hy, Except.map]

/-- The kept keys are exactly the first occurrences, in input order, of
the keys of the processed elements. -/
theorem dedupGo_keys :
    ∀ (xs : List Payload) (seen : List String) (ys : List Payload),
      dedupGo seen xs = .ok ys →
        ys.filterMap keysOf = firstOccur seen (xs.filterMap keysOf) := by
  intro xs
  induction xs with
  | nil =>
    intro seen ys h
    simp only [dedupGo] at h
    cases h
    rfl
  | cons r rest ih =>
    intro seen ys h
    rcases hc : dedupClass r with _ | _ | k <;> simp only [dedupGo, hc] at h
    · have hkr : keysOf r = none := by simp [keysOf, hc]
      rw [List.filterMap_cons_none hkr]
      exact ih seen ys h
    · cases h
    · have hkr : keysOf r = some k := by simp [keysOf, hc]
      rw [List.filterMap_cons_some hkr]
      by_cases hk : k ∈ seen
      · rw [if_pos hk] at h
        simp only [firstOccur, if_pos hk]
        exact ih seen ys h
      · rw [if_neg hk] at h
        cases hrec : dedupGo (k :: seen) rest with
        | error e => rw [hrec] at h; cases h
        | ok ys' =>
          rw [hrec] at h
          cases h
          simp only [firstOccur, if_neg hk]
          rw [List.filterMap_cons_some hkr]
          exact congrArg _ (ih (k :: seen) ys' hrec)

/-- **C4.** `deduplicate_results` is an order-preserving filter keeping,
for each track identity key, only the first occurrence in input order
(its output is a sublist of the input whose key sequence is the
first-occurrence subsequence of the input's key sequence), and it is
idempotent: composing it with itself (in the `Except` monad, so a
`KeyError` run is propagated unchanged) equals a single run, and any
successful output is a fixed point. -/
theorem C4_dedup_idempotent_filter :
    ∀ x : List Payload,
      (deduplicate_results x >>= deduplicate_results) = deduplicate_results x ∧
      ∀ ys, deduplicate_results x = .ok ys →
        ys.Sublist x ∧
        ys.filterMap keysOf = firstOccur [] (x.filterMap keysOf) ∧
        deduplicate_results ys = .ok ys := by
  intro x
  constructor
  · cases hx : deduplicate_results x with
    | error e => rfl
    | ok ys =>
      show Except.bind _ _ = _
      simp only [Except.bind]
      exact dedupGo_idem x [] ys hx
  · intro ys hys
    exact ⟨dedupGo_sublist x [] ys hys, dedupGo_keys x [] ys hys,
      dedupGo_idem x [] ys hys⟩

/-- Witness for C4 at the concrete three-element run with a duplicated
"ABC" identity. -/
theorem C4_witness :
    deduplicate_results [pABC0, pABC1, pXYZ2] = .ok [pABC0, pXYZ2] ∧
    [pABC0, pXYZ2].Sublist [pABC0, pABC1, pXYZ2] ∧
    [pABC0, pXYZ2].filterMap keysOf =
      firstOccur [] ([pABC0, pABC1, pXYZ2].filterMap keysOf) ∧
    deduplicate_results [pABC0, pXYZ2] = .ok [pABC0, pXYZ2] :=
  ⟨by rfl, (C4_dedup_idempotent_filter [pABC0, pABC1, pXYZ2]).2 [pABC0, pXYZ2] (by rfl)⟩

/-- Skipped elements (falsy payloads and falsy track dicts) are dropped
from anywhere in the input without affecting the loop's state. -/
theorem dedupGo_skip_middle :
    ∀ (xs : List Payload) (seen : List String) (ys : List Payload) (r : Payload),
      dedupClass r = .skip → dedupGo seen (xs ++ r :: ys) = dedupGo seen (xs ++ ys) := by
  intro xs
  induction xs with
  | nil =>
    intro seen ys r hr
    simp only [List.nil_append, dedupGo, hr]
  | cons x rest ih =>
    intro seen ys r hr
    rcases hx : dedupClass x with _ | _ | k <;>
      simp only [List.cons_append, dedupGo, hx]
    · exact ih seen ys r hr
    · by_cases hk : k ∈ seen
      · rw [if_pos hk, if_pos hk]
        exact ih seen ys r hr
      · rw [if_neg hk, if_neg hk]
        exact congrArg _ (ih (k :: seen) ys r hr)

/-- **C6 (amended).** `deduplicate_results` drops — without raising —
any outcome that is falsy or whose `"track"` record is missing or empty
(falsy), wherever it occurs in the input, leaving the processing of all
other outcomes unchanged; but an outcome whose non-empty `"track"`
record has no `'key'` entry is not dropped: it raises `KeyError`.
A missing track yields the skip class, an empty (all-keys-absent) track
yields the skip class, and a non-empty track without `'key'` yields the
`KeyError` class. -/
theorem C6_amended_skip_or_keyerror :
    ∀ (xs ys : List Payload) (r : Payload),
      (dedupClass r = .skip →
        deduplicate_results (xs ++ r :: ys) = deduplicate_results (xs ++ ys)) ∧
      (dedupClass r = .keyErr →
        deduplicate_results (r :: ys) = .error "KeyError") ∧
      (r.track = none → dedupClass r = .skip) ∧
      (r.track = some emptyTrack → dedupClass r = .skip) ∧
      (∀ t, r.track = some t → t.truthy = true → t.key = none →
        dedupClass r = .keyErr) := by
  intro xs ys r
  refine ⟨fun hr => dedupGo_skip_middle xs [] ys r hr, fun hr => ?_, fun hr => ?_,
    fun hr => ?_, fun t hr ht hk => ?_⟩
  · simp only [deduplicate_results, dedupGo, hr]
  · by_cases hp : r.truthy <;> simp [dedupClass, hp, hr]
  · have hp : r.truthy = true := by simp [Payload.truthy, hr]
    simp [dedupClass, hp, hr, Track.truthy, emptyTrack]
  · have hp : r.truthy = true := by simp [Payload.truthy, hr]
    simp [dedupClass, hp, hr, ht, hk]

/-- Witness for C6 at concrete inputs: the empty payload is skipped
from the middle of a run, and a payload whose non-empty track lacks
`'key'` raises. -/
theorem C6_witness :
    dedupClass emptyPayload = .skip ∧
    deduplicate_results ([pABC0] ++ emptyPayload :: [pXYZ2]) =
      deduplicate_results ([pABC0] ++ [pXYZ2]) ∧
    dedupClass pNoKey = .keyErr ∧
    deduplicate_results (pNoKey :: [pABC0]) = .error "KeyError" :=
  ⟨by decide, (C6_amended_skip_or_keyerror [pABC0] [pXYZ2] emptyPayload).1 (by decide),
   by decide, ((C6_amended_skip_or_keyerror [] [pABC0] pNoKey).2).1 (by decide)⟩

/-- The update one metadata entry applies to one of the two scanned
variables, for a given key and per-entry default. -/
def updKeyed (key dflt : String) (acc : String) (m : MetaEntry) : String :=
  if m.title = some key then m.text.getD dflt else acc

/-- The pair fold splits into two independent single-variable folds. -/
theorem foldl_scanMeta_components :
    ∀ (ms : List MetaEntry) (st : String × String),
      ms.foldl scanMeta st =
        (ms.foldl (updKeyed "Album" "Unknown Album") st.1,
         ms.foldl (updKeyed "Released" "Unknown Year") st.2) := by
  intro ms
  induction ms with
  | nil => intro st; rfl
  | cons m rest ih =>
    intro st
    rw [List.foldl_cons, List.foldl_cons, List.foldl_cons, ih (scanMeta st m)]
    rfl

/-- A left fold that overwrites on every match ends at the LAST matching
entry (found here as the first match in the reversed list), or at the
initial value when no entry matches. -/
theorem foldl_updKeyed_last (key dflt : String) :
    ∀ (ms : List MetaEntry) (a : String),
      ms.foldl (updKeyed key dflt) a =
        match ms.reverse.find? (fun m => m.title == some key) with
        | some m => m.text.getD dflt
        | none => a := by
  intro ms
  induction ms with
  | nil => intro a; rfl
  | cons m rest ih =>
    intro a
    rw [List.foldl_cons, ih (updKeyed key dflt a m)]
    rw [List.reverse_cons, List.find?_append]
    cases hfind : rest.reverse.find? (fun m => m.title == some key) with
    | some mf => rfl
    | none =>
      simp only [Option.or, List.find?]
      by_cases hm : m.title = some key
      · have : (m.title == some key) = true := beq_iff_eq.mpr hm
        simp only [this, updKeyed, if_pos hm]
      · have : (m.title == some key) = false := by
          simp [hm]
        simp only [this, updKeyed, if_neg hm]

/-- The nested section/metadata loop equals one fold over the
concatenation of every section's metadata list. -/
theorem foldl_sections_flat :
    ∀ (secs : List SectionRec) (st : String × String),
      secs.foldl (fun st s => (sectionMetas s).foldl scanMeta st) st =
        (secs.flatMap sectionMetas).foldl scanMeta st := by
  intro secs
  induction secs with
  | nil => intro st; rfl
  | cons s rest ih =>
    intro st
    rw [List.foldl_cons, ih, List.flatMap_cons, List.foldl_append]

/-- All metadata entries of a track, across every section in order. -/
def flatSectionMetas (t : Track) : List MetaEntry :=
  (t.sections.getD []).flatMap sectionMetas

/-- The text of the last metadata entry across all sections whose title
equals `key` (with the per-entry default when that entry has no text),
or the default when no entry matches. -/
def lastKeyed (key dflt : String) (t : Track) : String :=
  match (flatSectionMetas t).reverse.find? (fun m => m.title == some key) with
  | some m => m.text.getD dflt
  | none => dflt

/-- The album field of `testyboy.extract_track_info` is the last
"Album"-titled entry across all sections. -/
theorem extract_album_eq (entry : Payload) (ts : String) :
    (extract_track_info entry ts).lookup "Album" =
      some (lastKeyed "Album" "Unknown Album" (entry.track.getD emptyTrack)) := by
  have h1 : (extract_track_info entry ts).lookup "Album" =
      some ((((entry.track.getD emptyTrack).sections.getD []).foldl
        (fun st s => (sectionMetas s).foldl scanMeta st)
        ("Unknown Album", "Unknown Year")).1) := rfl
  have h2 : (((entry.track.getD emptyTrack).sections.getD []).foldl
      (fun st s => (sectionMetas s).foldl scanMeta st)
      ("Unknown Album", "Unknown Year")).1 =
      (((entry.track.getD emptyTrack).sections.getD []).flatMap sectionMetas).foldl
        (updKeyed "Album" "Unknown Album") "Unknown Album" := by
    rw [foldl_sections_flat, foldl_scanMeta_components]
  rw [h1, h2, foldl_updKeyed_last]
  rfl

/-- The release-year field of `testyboy.extract_track_info` is the last
"Released"-titled entry across all sections. -/
theorem extract_year_eq (entry : Payload) (ts : String) :
    (extract_track_info entry ts).lookup "Year Released" =
      some (lastKeyed "Released" "Unknown Year" (entry.track.getD emptyTrack)) := by
  have h1 : (extract_track_info entry ts).lookup "Year Released" =
      some ((((entry.track.getD emptyTrack).sections.getD []).foldl
        (fun st s => (sectionMetas s).foldl scanMeta st)
        ("Unknown Album", "Unknown Year")).2) := rfl
  have h2 : (((entry.track.getD emptyTrack).sections.getD []).foldl
      (fun st s => (sectionMetas s).foldl scanMeta st)
      ("Unknown Album", "Unknown Year")).2 =
      (((entry.track.getD emptyTrack).sections.getD []).flatMap sectionMetas).foldl
        (updKeyed "Released" "Unknown Year") "Unknown Year" := by
    rw [foldl_sections_flat, foldl_scanMeta_components]
  rw [h1, h2, foldl_updKeyed_last]
  rfl

/-- **C2 (amended).** For every raw payload, `testyboy.extract_track_info`
sets the album to the text of the LAST metadata entry — scanning entries
across all sections in order — whose title equals "Album" (with the
per-entry default "Unknown Album", and the default when no section
contains such an entry), and releaseYear likewise for "Released"; in
particular, when "Album" appears only in the second of two sections,
this extraction returns that value.  (`clean.extract_track_info`, by
contrast, scans only the first section — see the counterexample.) -/
theorem C2_amended_last_match_all_sections :
    ∀ (entry : Payload) (ts : String),
      (extract_track_info entry ts).lookup "Album" =
        some (lastKeyed "Album" "Unknown Album" (entry.track.getD emptyTrack)) ∧
      (extract_track_info entry ts).lookup "Year Released" =
        some (lastKeyed "Released" "Unknown Year" (entry.track.getD emptyTrack)) ∧
      (extract_track_info ⟨some trackLateAlbum, none⟩ ts).lookup "Album" =
        some "Late Album" :=
  fun entry ts => ⟨extract_album_eq entry ts, extract_year_eq entry ts, rfl⟩

/-- **C9 counterexample.** No `InvalidInput` failure exists in the
code: on empty audio segmentation returns an empty chunk list without
error, and a negative window duration likewise returns an empty list
without error (the claim requires a failure in both cases). -/
theorem C9_counterexample :
    split_audio_into_chunks 0 40 = .ok [] ∧
    split_audio_into_chunks 5000 (-1) = .ok [] := by
  constructor
  · show make_chunks 0 (40 * 1000) = .ok []
    unfold make_chunks
    rw [if_neg (by norm_num)]
    have h : ⌈((0 : Nat) : ℚ) / (((40 * 1000 : Int)) : ℚ)⌉ = 0 := by
      rw [Int.ceil_eq_iff]; norm_num
    rw [h]
    rfl
  · show make_chunks 5000 (-1 * 1000) = .ok []
    unfold make_chunks
    rw [if_neg (by norm_num)]
    have h : ⌈((5000 : Nat) : ℚ) / (((-1 * 1000 : Int)) : ℚ)⌉ = -5 := by
      rw [Int.ceil_eq_iff]; norm_num
    rw [h]
    rfl

/-- **C9 (amended).** Segmentation performs no input validation:
windowDuration = 0 raises `ZeroDivisionError` (inside pydub's
`make_chunks`, before any recognition dispatch), windowDuration < 0
silently yields an empty chunk list, empty audio silently yields an
empty chunk list, and for windowDuration > 0 on non-empty audio it
returns a non-empty chunk list without error.  No `InvalidInput` error
is ever produced. -/
theorem C9_amended_no_validation :
    ∀ (audioLen : Nat) (w : Int),
      (w = 0 → split_audio_into_chunks audioLen w = .error "ZeroDivisionError") ∧
      (audioLen = 0 → w ≠ 0 → split_audio_into_chunks audioLen w = .ok []) ∧
      (w < 0 → split_audio_into_chunks audioLen w = .ok []) ∧
      (0 < w → 0 < audioLen →
        ∃ cs, split_audio_into_chunks audioLen w = .ok cs ∧ cs ≠ []) := by
  intro len w
  refine ⟨fun hw => ?_, fun hlen hw => ?_, fun hw => ?_, fun hw hlen => ?_⟩
  · subst hw
    rfl
  · subst hlen
    have hcl : (w * 1000 : Int) ≠ 0 := mul_ne_zero hw (by norm_num)
    show make_chunks 0 (w * 1000) = .ok []
    unfold make_chunks
    rw [if_neg hcl]
    have h : ⌈((0 : Nat) : ℚ) / ((w * 1000 : Int) : ℚ)⌉ = 0 := by
      norm_num
    rw [h]
    rfl
  · have hclz : (w * 1000 : Int) < 0 := by nlinarith
    have hcl : (w * 1000 : Int) ≠ 0 := ne_of_lt hclz
    show make_chunks len (w * 1000) = .ok []
    unfold make_chunks
    rw [if_neg hcl]
    have hq : ((w * 1000 : Int) : ℚ) < 0 := by exact_mod_cast hclz
    have hdiv : ((len : Nat) : ℚ) / ((w * 1000 : Int) : ℚ) ≤ 0 :=
      div_nonpos_iff.mpr (Or.inl ⟨Nat.cast_nonneg len, le_of_lt hq⟩)
    have hceil : ⌈((len : Nat) : ℚ) / ((w * 1000 : Int) : ℚ)⌉ ≤ 0 :=
      Int.ceil_le.mpr (by exact_mod_cast hdiv)
    rw [Int.toNat_of_nonpos hceil]
    rfl
  · have hclz : (0 : Int) < w * 1000 := by nlinarith
    have hcl : (w * 1000 : Int) ≠ 0 := (ne_of_lt hclz).symm
    have hq : (0 : ℚ) < ((w * 1000 : Int) : ℚ) := by exact_mod_cast hclz
    have hlq : (0 : ℚ) < ((len : Nat) : ℚ) := by exact_mod_cast hlen
    have hceil : 0 < ⌈((len : Nat) : ℚ) / ((w * 1000 : Int) : ℚ)⌉ :=
      Int.ceil_pos.mpr (div_pos hlq hq)
    show ∃ cs, make_chunks len (w * 1000) = .ok cs ∧ cs ≠ []
    unfold make_chunks
    rw [if_neg hcl]
    refine ⟨_, rfl, ?_⟩
    simp only [ne_eq, List.map_eq_nil_iff, List.range_eq_nil]
    intro hcontra
    have hle := Int.toNat_eq_zero.mp hcontra
    linarith

/-- Witness for C9 at audio of 5000 ms and a 40-second window: a
successful, non-empty segmentation. -/
theorem C9_witness :
    (0 : Int) < 40 ∧ (0 : Nat) < 5000 ∧
    ∃ cs, split_audio_into_chunks 5000 40 = .ok cs ∧ cs ≠ [] :=
  ⟨by decide, by decide,
   (C9_amended_no_validation 5000 40).2.2.2 (by decide) (by decide)⟩
